import Mathlib

/-!
# Losmandy Gemini driver (`lx200gemini.cpp`): protocol layer

A shallow embedding of `LX200Gemini::checkConnection`, `isSlewComplete`,
`syncSideOfPier`, `Park` and `UnPark`.

* The serial port is an explicit state `σ` threaded through the four
  transport primitives the driver calls (`tcflush`, `tty_write`,
  `tty_read_section`, `tty_read`); their outcomes are left to an arbitrary
  `Transport σ`, so every theorem quantifies over every device behaviour.
* Every transport call is appended to a ghost log (`LX200Gemini.log`), which
  is what the statements about written bytes and flush ordering talk about.
* `char` buffers are lists of bytes with the terminating NUL written out. The
  response array is `char response[2]`: a terminator-framed read that
  receives more bytes than the array holds writes past its end, which is
  undefined behaviour; such a run has the outcome `Run.undefined`.
* `checkConnection` calls itself; the embedding takes a recursion budget and
  has the outcome `Run.unfinished` when the budget is used up.
-/

namespace Gemini

/-- One `char`. -/
abbrev Byte := Fin 256

/-! ## Character constants used by the driver -/

/-- The NUL character. -/
def NUL : Byte := 0
/-- The probe byte 0x06. -/
def ACK : Byte := 6
/-- The character `#`. -/
def HASH : Byte := 35
/-- The character `A`. -/
def chr_A : Byte := 65
/-- The character `B`. -/
def chr_B : Byte := 66
/-- The character `E`. -/
def chr_E : Byte := 69
/-- The character `G`. -/
def chr_G : Byte := 71
/-- The character `N`. -/
def chr_N : Byte := 78
/-- The character `S`. -/
def chr_S : Byte := 83
/-- The character `T`. -/
def chr_T : Byte := 84
/-- The character `b`. -/
def chr_b : Byte := 98

/-! ## String literals of the source, as NUL-terminated arrays -/

/-- The literal `"bC#"`. -/
def lit_bC : List Byte := [98, 67, 35, 0]
/-- The literal `"bW#"`. -/
def lit_bW : List Byte := [98, 87, 35, 0]
/-- The literal `"bR#"`. -/
def lit_bR : List Byte := [98, 82, 35, 0]
/-- The literal `"#:Gv#"`. -/
def lit_Gv : List Byte := [35, 58, 71, 118, 35, 0]
/-- The literal `"#:Gm#"`. -/
def lit_Gm : List Byte := [35, 58, 71, 109, 35, 0]
/-- The literal `"#:hP#"`. -/
def lit_hP : List Byte := [35, 58, 104, 80, 35, 0]
/-- The literal `"#:hC#"`. -/
def lit_hC : List Byte := [35, 58, 104, 67, 35, 0]
/-- The literal `"#:hZ#"`. -/
def lit_hZ : List Byte := [35, 58, 104, 90, 35, 0]
/-- The literal `"#:hN#"`. -/
def lit_hN : List Byte := [35, 58, 104, 78, 35, 0]

/-- The call `strncpy(dest, src, n)`: the characters of `src` before its NUL, padded
with NULs to `n` characters, replace the first `n` characters of `dest`. -/
def strncpy (dest src : List Byte) (n : Nat) : List Byte :=
  ((src.takeWhile (fun c => c != NUL)) ++ List.replicate n NUL).take n ++ dest.drop n

/-! ## Enumerations

The driver's header and the base telescope class are not part of the source
at hand; the enumerations are the ones the specification lists. -/

/-- Modelled from the spec: the mount tracking state of the base class
(`TrackState`), one of IDLE, SLEWING, TRACKING, PARKING, PARKED. -/
inductive TelescopeStatus
  | SCOPE_IDLE | SCOPE_SLEWING | SCOPE_TRACKING | SCOPE_PARKING | SCOPE_PARKED
  deriving DecidableEq

/-- Modelled from the spec: the pier side of the base class, one of EAST,
WEST, UNKNOWN. -/
inductive TelescopePierSide
  | PIER_UNKNOWN | PIER_WEST | PIER_EAST
  deriving DecidableEq

/-- Modelled from the spec: the state of a property vector (`ParkSP.s`); the
driver only ever stores `IPS_BUSY` in it. -/
inductive IPState
  | IPS_IDLE | IPS_OK | IPS_BUSY | IPS_ALERT
  deriving DecidableEq

/-- Modelled from the spec: the index of the switch that is on in
`StartupModeSP` (header enumeration COLD_START, WARM_START, WARM_RESTART;
exactly one is selected). -/
inductive StartupMode
  | COLD_START | WARM_START | WARM_RESTART
  deriving DecidableEq

/-- Modelled from the spec: the index of the switch that is on in
`ParkOptionSP` (header enumeration PARK_HOME, PARK_STARTUP, PARK_ZENITH;
exactly one is selected). -/
inductive ParkOption
  | PARK_HOME | PARK_STARTUP | PARK_ZENITH
  deriving DecidableEq

/-! ## Transport -/

/-- Modelled from the spec: the transport primitives, an external
collaborator. `tcflush` discards pending bytes. `tty_write` is handed the
bytes to send and answers whether it returned `TTY_OK`. `tty_read_section`
receives until the stop character: `some payload` is `TTY_OK` with `payload`
the bytes that arrived before the stop character, `none` is an error or a
timeout. `tty_read` receives a fixed number of bytes: `some bytes` is
`TTY_OK`, `none` an error or a timeout. The fixed timeout `GEMINI_TIMEOUT`
is part of the primitive's behaviour and not a separate argument. -/
structure Transport (σ : Type) where
  tcflush : σ → σ
  tty_write : σ → List Byte → Bool × σ
  tty_read_section : σ → Byte → Option (List Byte) × σ
  tty_read : σ → Nat → Option (List Byte) × σ

/-- One transport call, with what it was given and what it answered. -/
inductive Op
  | flush
  | write (bytes : List Byte) (ok : Bool)
  | read_section (stop : Byte) (result : Option (List Byte))
  | read (nbytes : Nat) (result : Option (List Byte))
  deriving DecidableEq

/-- The mount state the five operations can see: `TrackState`, the pier
side, `ParkSP.s` and the two selections. -/
structure Mount where
  TrackState : TelescopeStatus
  currentPierSide : TelescopePierSide
  ParkSP_s : IPState
  StartupModeSP : StartupMode
  ParkOptionSP : ParkOption
  deriving DecidableEq

/-- The driver object: the port, the mount state, and the log of transport
calls made so far. -/
structure LX200Gemini (σ : Type) where
  PortFD : σ
  mount : Mount
  log : List Op
  deriving DecidableEq

variable {σ : Type}

/-- The call `tcflush(PortFD, TCIOFLUSH)`. -/
def tcflush (T : Transport σ) (s : LX200Gemini σ) : LX200Gemini σ :=
  { s with PortFD := T.tcflush s.PortFD, log := s.log ++ [Op.flush] }

/-- The call `tty_write(PortFD, buf, nbytes, ..)`: the first `nbytes`
characters of `buf` are sent; the answer is `rc == TTY_OK`. -/
def tty_write (T : Transport σ) (s : LX200Gemini σ) (buf : List Byte) (nbytes : Nat) :
    Bool × LX200Gemini σ :=
  let r := T.tty_write s.PortFD (buf.take nbytes)
  (r.1, { s with PortFD := r.2, log := s.log ++ [Op.write (buf.take nbytes) r.1] })

/-- The outcome of a run of a driver method: it returned a value, or it wrote
past the end of an array (undefined behaviour, nothing is known of what
follows), or the recursion budget of the embedding was used up before it
returned. -/
inductive Run (α : Type)
  | returned (a : α)
  | undefined
  | unfinished
  deriving DecidableEq

/-- What a terminator-framed read into an array gives the caller: an error
code, or `TTY_OK` with the array and `nbytes_read`, or more bytes than the
array holds, written past its end. -/
inductive Received
  | error
  | ok (response : List Byte) (nbytes_read : Nat)
  | overflow
  deriving DecidableEq

/-- The bytes `recv` stored from the start of the array `buf`; they fit. -/
def store (buf recv : List Byte) (_h : recv.length ≤ buf.length) : List Byte :=
  recv ++ buf.drop recv.length

/-- The call `tty_read_section(PortFD, response, stop, GEMINI_TIMEOUT, ..)`. It
stores every byte up to and including the stop character, however many there
are: when they fit the array the answer on `TTY_OK` is the array and
`nbytes_read`, when they do not the call has written past the end of the
array. -/
def tty_read_section (T : Transport σ) (s : LX200Gemini σ) (response : List Byte)
    (stop : Byte) : Received × LX200Gemini σ :=
  let r := T.tty_read_section s.PortFD stop
  let s1 := { s with PortFD := r.2, log := s.log ++ [Op.read_section stop r.1] }
  match r.1 with
  | some payload =>
    if h : (payload ++ [stop]).length ≤ response.length then
      (Received.ok (store response (payload ++ [stop]) h) (payload.length + 1), s1)
    else (Received.overflow, s1)
  | none => (Received.error, s1)

/-- The call `tty_read(PortFD, response, nbytes, GEMINI_TIMEOUT, ..)` with
`nbytes` no more than the array holds: on `TTY_OK` the answer is the array
holding the `nbytes` bytes received. -/
def tty_read (T : Transport σ) (s : LX200Gemini σ) (response : List Byte)
    (nbytes : Nat) (h : nbytes ≤ response.length) : Option (List Byte) × LX200Gemini σ :=
  let r := T.tty_read s.PortFD nbytes
  let s1 := { s with PortFD := r.2, log := s.log ++ [Op.read nbytes r.1] }
  match r.1 with
  | some bytes =>
    (some (store response (bytes.take nbytes) (le_trans (List.length_take_le _ _) h)), s1)
  | none => (none, s1)

/-- Modelled from the spec: `setPierSide` of the base class, which updates
the pier side exposed to the rest of the driver. -/
def setPierSide (s : LX200Gemini σ) (side : TelescopePierSide) : LX200Gemini σ :=
  { s with mount := { s.mount with currentPierSide := side } }

/-! ## The five operations -/

/-- The method `LX200Gemini::checkConnection`. The first argument is the recursion
budget. The branches for `B`, `S`, `G` and `A` only write a debug message
and fall through to `return true`. -/
def checkConnection (T : Transport σ) : Nat → LX200Gemini σ → Run (Bool × LX200Gemini σ)
  | 0, _ => Run.unfinished
  | fuel + 1, s =>
    let response : List Byte := [0, 0]
    let s := tcflush T s
    let ack : List Byte := [ACK]
    match tty_write T s ack 1 with
    | (false, s) => Run.returned (false, s)
    | (true, s) =>
      match tty_read_section T s response HASH with
      | (Received.error, s) => Run.returned (false, s)
      | (Received.overflow, _) => Run.undefined
      | (Received.ok response _, s) =>
        let response := response.set 1 NUL
        let s := tcflush T s
        if response.getD 0 NUL = chr_b then
          let cmd := lit_bC
          let startupMode := s.mount.StartupModeSP
          let cmd :=
            if startupMode = StartupMode.WARM_START then strncpy cmd lit_bW 4
            else if startupMode = StartupMode.WARM_RESTART then strncpy cmd lit_bR 4
            else cmd
          match tty_write T s cmd 4 with
          | (false, s) => Run.returned (false, s)
          | (true, s) => checkConnection T fuel s
        else if response.getD 0 NUL = chr_B then Run.returned (true, s)
        else if response.getD 0 NUL = chr_S then Run.returned (true, s)
        else if response.getD 0 NUL = chr_G then Run.returned (true, s)
        else if response.getD 0 NUL = chr_A then Run.returned (true, s)
        else Run.returned (true, s)

/-- The method `LX200Gemini::isSlewComplete`. -/
def isSlewComplete (T : Transport σ) (s : LX200Gemini σ) : Bool × LX200Gemini σ :=
  let cmd := lit_Gv
  let response : List Byte := [0, 0]
  let s := tcflush T s
  match tty_write T s cmd 5 with
  | (false, s) => (false, s)
  | (true, s) =>
    match tty_read T s response 1 (by decide) with
    | (none, s) => (false, s)
    | (some response, s) =>
      let response := response.set 1 NUL
      let s := tcflush T s
      if response.getD 0 NUL = chr_T ∨ response.getD 0 NUL = chr_G
          ∨ response.getD 0 NUL = chr_N then (true, s)
      else (false, s)

/-- The method `LX200Gemini::syncSideOfPier`. -/
def syncSideOfPier (T : Transport σ) (s : LX200Gemini σ) : Run (LX200Gemini σ) :=
  let cmd := lit_Gm
  let response : List Byte := [0, 0]
  let s := tcflush T s
  match tty_write T s cmd 5 with
  | (false, s) => Run.returned s
  | (true, s) =>
    match tty_read_section T s response HASH with
    | (Received.error, s) => Run.returned s
    | (Received.overflow, _) => Run.undefined
    | (Received.ok response nbytes_read, s) =>
      let response := response.set (nbytes_read - 1) NUL
      let s := tcflush T s
      Run.returned
        (setPierSide s (if response.getD 0 NUL = chr_E then TelescopePierSide.PIER_EAST
                        else TelescopePierSide.PIER_WEST))

/-- The method `LX200Gemini::Park`. -/
def Park (T : Transport σ) (s : LX200Gemini σ) : Bool × LX200Gemini σ :=
  let cmd := lit_hP
  let parkOption := s.mount.ParkOptionSP
  let cmd :=
    if parkOption = ParkOption.PARK_STARTUP then strncpy cmd lit_hC 5
    else if parkOption = ParkOption.PARK_ZENITH then strncpy cmd lit_hZ 5
    else cmd
  let s := tcflush T s
  match tty_write T s cmd 5 with
  | (false, s) => (false, s)
  | (true, s) =>
    let s := { s with mount := { s.mount with ParkSP_s := IPState.IPS_BUSY } }
    let s := { s with mount := { s.mount with TrackState := TelescopeStatus.SCOPE_PARKING } }
    (true, s)

/-- The method `LX200Gemini::UnPark`. -/
def UnPark (T : Transport σ) (s : LX200Gemini σ) : Bool × LX200Gemini σ :=
  let cmd := lit_hN
  let s := tcflush T s
  match tty_write T s cmd 5 with
  | (false, s) => (false, s)
  | (true, s) =>
    let s := { s with mount := { s.mount with TrackState := TelescopeStatus.SCOPE_IDLE } }
    (true, s)

/-! ## Reading the log -/

/-- The byte strings handed to `tty_write`, in order. -/
def writes : List Op → List (List Byte)
  | [] => []
  | Op.write bytes _ :: rest => bytes :: writes rest
  | _ :: rest => writes rest

/-- The call is a write. -/
def Op.isWrite : Op → Bool
  | Op.write _ _ => true
  | _ => false

/-- The call is a read that returned `TTY_OK`. -/
def Op.isReadOk : Op → Bool
  | Op.read_section _ (some _) => true
  | Op.read _ (some _) => true
  | _ => false

/-- Flush bracketing of a sequence of transport calls: every write has a
flush right before it, every read that succeeded has a flush right after. -/
def FlushBracketed (l : List Op) : Prop :=
  ∀ (i : Nat) (op : Op), l[i]? = some op →
    (op.isWrite = true → ∃ j, i = j + 1 ∧ l[j]? = some Op.flush) ∧
    (op.isReadOk = true → l[i + 1]? = some Op.flush)

/-- Executable check of flush bracketing; `prevFlush` says whether the call
before the head of the list was a flush. -/
def bracketedFrom (prevFlush : Bool) : List Op → Bool
  | [] => true
  | op :: rest =>
    (!op.isWrite || prevFlush) && (!op.isReadOk || rest.head? == some Op.flush)
      && bracketedFrom (op == Op.flush) rest

/-! ## Example devices -/

/-- A device counting the responses it has given: every write succeeds, the
first `k` terminator-framed reads answer `b#`, later ones `G#`, and a
one-byte read answers `N`. The port state is the number of prompts left. -/
def promptDevice : Transport Nat where
  tcflush := fun p => p
  tty_write := fun p _ => (true, p)
  tty_read_section := fun p _ =>
    match p with
    | 0 => (some [chr_G], 0)
    | k + 1 => (some [chr_b], k)
  tty_read := fun p _ => (some [chr_N], p)

/-- A device on which every write fails. -/
def deadDevice : Transport Unit where
  tcflush := fun p => p
  tty_write := fun p _ => (false, p)
  tty_read_section := fun p _ => (none, p)
  tty_read := fun p _ => (none, p)

/-- A device whose every read answers the bytes held in the port state, and
whose every write succeeds. -/
def fixedDevice : Transport (List Byte) where
  tcflush := fun p => p
  tty_write := fun p _ => (true, p)
  tty_read_section := fun p _ => (some p, p)
  tty_read := fun p _ => (some p, p)

/-- A device that accepts every write and never answers. -/
def muteDevice : Transport Unit where
  tcflush := fun p => p
  tty_write := fun p _ => (true, p)
  tty_read_section := fun p _ => (none, p)
  tty_read := fun p _ => (none, p)

/-- The park command of the specification's table: `#:hP#` for HOME, `#:hC#`
for STARTUP_POSITION, `#:hZ#` for ZENITH. -/
def spec_parkCommand : ParkOption → List Byte
  | ParkOption.PARK_HOME => [35, 58, 104, 80, 35]
  | ParkOption.PARK_STARTUP => [35, 58, 104, 67, 35]
  | ParkOption.PARK_ZENITH => [35, 58, 104, 90, 35]

/-- The letter of the specification's table for a startup mode: `C` for
COLD_START, `W` for WARM_START, `R` for WARM_RESTART. -/
def spec_startupLetter : StartupMode → Byte
  | StartupMode.COLD_START => 67
  | StartupMode.WARM_START => 87
  | StartupMode.WARM_RESTART => 82

/-- The four bytes the handshake hands to `tty_write` for a startup mode:
`b`, the letter of the mode, `#` and the NUL that ends the array. -/
def startupCommand (m : StartupMode) : List Byte :=
  [98, spec_startupLetter m, 35, 0]

/-- The device grants at most `k` prompt rounds in a row from the port state
`p` when the startup mode `m` is selected. A prompt round is: the probe 0x06
is accepted, the response read is `b#`, and the sub-command of the mode is
accepted. -/
def PromptsAtMost (T : Transport σ) (m : StartupMode) : Nat → σ → Prop
  | 0, p => ∀ (p1 p2 p3 : σ),
      T.tty_write (T.tcflush p) [6] = (true, p1) →
      T.tty_read_section p1 HASH = (some [chr_b], p2) →
      T.tty_write (T.tcflush p2) [98, spec_startupLetter m, 35, 0] = (true, p3) →
      False
  | k + 1, p => ∀ (p1 p2 p3 : σ),
      T.tty_write (T.tcflush p) [6] = (true, p1) →
      T.tty_read_section p1 HASH = (some [chr_b], p2) →
      T.tty_write (T.tcflush p2) [98, spec_startupLetter m, 35, 0] = (true, p3) →
      PromptsAtMost T m k p3

/-- A mount in the given tracking state and pier side, with the given
selections and an empty log. -/
def start (p : σ) (ts : TelescopeStatus) (side : TelescopePierSide) (m : StartupMode)
    (o : ParkOption) : LX200Gemini σ :=
  { PortFD := p
    mount := { TrackState := ts, currentPierSide := side, ParkSP_s := IPState.IPS_IDLE,
               StartupModeSP := m, ParkOptionSP := o }
    log := [] }

/-! ## Theorems -/

/-- The first byte the handshake inspects is the first byte received. -/
theorem firstByte_checkConnection (payload : List Byte)
    (h : (payload ++ [HASH]).length ≤ ([0, 0] : List Byte).length) :
    ((store [0, 0] (payload ++ [HASH]) h).set 1 NUL).getD 0 NUL = chr_b ↔
      (payload ++ [HASH]).head? = some chr_b := by
  cases payload with
  | nil => simp [store, HASH, chr_b]
  | cons a t => simp [store]

/-- A response fits the two-byte array when its payload is at most one
byte. -/
theorem fits_iff (payload : List Byte) :
    (payload ++ [HASH]).length ≤ ([0, 0] : List Byte).length ↔ payload.length ≤ 1 := by
  simp

/-- The command selected for a startup mode, as handed to `tty_write`. -/
theorem startupCommand_eq (m : StartupMode) :
    (if m = StartupMode.WARM_START then strncpy lit_bC lit_bW 4
      else if m = StartupMode.WARM_RESTART then strncpy lit_bC lit_bR 4
      else lit_bC).take 4 = startupCommand m := by
  cases m <;> decide

/-- Handshake, probe write fails. -/
theorem checkConnection_write_fail (T : Transport σ) (fuel : Nat) (s : LX200Gemini σ) (p1 : σ)
    (hw : T.tty_write (T.tcflush s.PortFD) [ACK] = (false, p1)) :
    checkConnection T (fuel + 1) s
      = Run.returned (false, { PortFD := p1, mount := s.mount,
                               log := s.log ++ [Op.flush, Op.write [ACK] false] }) := by
  simp [checkConnection, tty_write, tcflush, hw]

/-- Handshake, response read fails. -/
theorem checkConnection_read_fail (T : Transport σ) (fuel : Nat) (s : LX200Gemini σ) (p1 p2 : σ)
    (hw : T.tty_write (T.tcflush s.PortFD) [ACK] = (true, p1))
    (hr : T.tty_read_section p1 HASH = (none, p2)) :
    checkConnection T (fuel + 1) s
      = Run.returned (false, { PortFD := p2, mount := s.mount,
                               log := s.log ++ [Op.flush, Op.write [ACK] true,
                                                Op.read_section HASH none] }) := by
  simp [checkConnection, tty_write, tty_read_section, tcflush, hw, hr]

/-- Handshake, the response does not fit the array. -/
theorem checkConnection_overflow (T : Transport σ) (fuel : Nat) (s : LX200Gemini σ) (p1 p2 : σ)
    (payload : List Byte)
    (hw : T.tty_write (T.tcflush s.PortFD) [ACK] = (true, p1))
    (hr : T.tty_read_section p1 HASH = (some payload, p2))
    (hlen : 1 < payload.length) :
    checkConnection T (fuel + 1) s = Run.undefined := by
  have hfit : ¬ (payload ++ [HASH]).length ≤ ([0, 0] : List Byte).length := by
    rw [fits_iff]; omega
  simp only [checkConnection, tty_write, tty_read_section, tcflush, List.take, hw, hr, hfit,
    dite_false]

/-- Handshake, response fits and does not begin with `b`. -/
theorem checkConnection_status (T : Transport σ) (fuel : Nat) (s : LX200Gemini σ) (p1 p2 : σ)
    (payload : List Byte)
    (hw : T.tty_write (T.tcflush s.PortFD) [ACK] = (true, p1))
    (hr : T.tty_read_section p1 HASH = (some payload, p2))
    (hlen : payload.length ≤ 1)
    (hb : (payload ++ [HASH]).head? ≠ some chr_b) :
    checkConnection T (fuel + 1) s
      = Run.returned (true, { PortFD := T.tcflush p2, mount := s.mount,
                              log := s.log ++ [Op.flush, Op.write [ACK] true,
                                               Op.read_section HASH (some payload),
                                               Op.flush] }) := by
  have hfit := (fits_iff payload).mpr hlen
  have hb2 := (not_congr (firstByte_checkConnection payload hfit)).mpr hb
  simp only [checkConnection, tty_write, tty_read_section, tcflush, List.take, hw, hr, hfit,
    dite_true, hb2]
  simp

/-- Handshake, startup prompt, sub-command write fails. -/
theorem checkConnection_prompt_fail (T : Transport σ) (fuel : Nat) (s : LX200Gemini σ)
    (p1 p2 p3 : σ) (payload : List Byte)
    (hw : T.tty_write (T.tcflush s.PortFD) [ACK] = (true, p1))
    (hr : T.tty_read_section p1 HASH = (some payload, p2))
    (hlen : payload.length ≤ 1)
    (hb : (payload ++ [HASH]).head? = some chr_b)
    (hc : T.tty_write (T.tcflush p2) (startupCommand s.mount.StartupModeSP) = (false, p3)) :
    checkConnection T (fuel + 1) s
      = Run.returned (false, { PortFD := p3, mount := s.mount,
                               log := s.log ++ [Op.flush, Op.write [ACK] true,
                                 Op.read_section HASH (some payload), Op.flush,
                                 Op.write (startupCommand s.mount.StartupModeSP) false] }) := by
  have hfit := (fits_iff payload).mpr hlen
  have hb2 := (firstByte_checkConnection payload hfit).mpr hb
  simp only [checkConnection, tty_write, tty_read_section, tcflush, List.take, hw, hr, hfit,
    dite_true, hb2, startupCommand_eq, hc]
  simp

/-- Handshake, startup prompt, sub-command written: the handshake starts
again. -/
theorem checkConnection_prompt (T : Transport σ) (fuel : Nat) (s : LX200Gemini σ)
    (p1 p2 p3 : σ) (payload : List Byte)
    (hw : T.tty_write (T.tcflush s.PortFD) [ACK] = (true, p1))
    (hr : T.tty_read_section p1 HASH = (some payload, p2))
    (hlen : payload.length ≤ 1)
    (hb : (payload ++ [HASH]).head? = some chr_b)
    (hc : T.tty_write (T.tcflush p2) (startupCommand s.mount.StartupModeSP) = (true, p3)) :
    checkConnection T (fuel + 1) s
      = checkConnection T fuel
          { PortFD := p3, mount := s.mount,
            log := s.log ++ [Op.flush, Op.write [ACK] true,
                             Op.read_section HASH (some payload), Op.flush,
                             Op.write (startupCommand s.mount.StartupModeSP) true] } := by
  have hfit := (fits_iff payload).mpr hlen
  have hb2 := (firstByte_checkConnection payload hfit).mpr hb
  simp only [checkConnection, tty_write, tty_read_section, tcflush, List.take, hw, hr, hfit,
    dite_true, hb2, startupCommand_eq, hc]
  simp

/-- Claim C1. `isSlewComplete`: when the write of `#:Gv#` and the one-byte read
both succeed and the byte read is `b`, the result is true exactly when `b` is
`T`, `G` or `N`; when the write fails, or the read fails, the result is
false. -/
theorem isSlewComplete_true_iff (T : Transport σ) (s : LX200Gemini σ) :
    (∀ (b : Byte) (rest : List Byte) (p1 p2 : σ),
        T.tty_write (T.tcflush s.PortFD) [35, 58, 71, 118, 35] = (true, p1) →
        T.tty_read p1 1 = (some (b :: rest), p2) →
        ((isSlewComplete T s).1 = true ↔ (b = chr_T ∨ b = chr_G ∨ b = chr_N))) ∧
    (∀ (p1 : σ),
        T.tty_write (T.tcflush s.PortFD) [35, 58, 71, 118, 35] = (false, p1) →
        (isSlewComplete T s).1 = false) ∧
    (∀ (p1 p2 : σ),
        T.tty_write (T.tcflush s.PortFD) [35, 58, 71, 118, 35] = (true, p1) →
        T.tty_read p1 1 = (none, p2) →
        (isSlewComplete T s).1 = false) := by
  refine ⟨?_, ?_, ?_⟩
  · intro b rest p1 p2 hw hr
    simp only [isSlewComplete, tty_write, tty_read, tcflush, lit_Gv, List.take, hw, hr, store]
    by_cases h : b = chr_T ∨ b = chr_G ∨ b = chr_N
    · simp [h]
    · simp [h]
  · intro p1 hw
    simp [isSlewComplete, tty_write, tcflush, lit_Gv, hw]
  · intro p1 p2 hw hr
    simp [isSlewComplete, tty_write, tty_read, tcflush, lit_Gv, hw, hr]

/-- Witness of C1 on a device answering `N`, a device whose writes fail and a
device that never answers. -/
theorem isSlewComplete_true_iff_witness :
    ((isSlewComplete promptDevice
        (start 0 .SCOPE_SLEWING .PIER_UNKNOWN .COLD_START .PARK_HOME)).1 = true ↔
      (chr_N = chr_T ∨ chr_N = chr_G ∨ chr_N = chr_N)) ∧
    (isSlewComplete deadDevice
        (start () .SCOPE_SLEWING .PIER_UNKNOWN .COLD_START .PARK_HOME)).1 = false ∧
    (isSlewComplete muteDevice
        (start () .SCOPE_SLEWING .PIER_UNKNOWN .COLD_START .PARK_HOME)).1 = false :=
  ⟨(isSlewComplete_true_iff promptDevice _).1 chr_N [] 0 0 rfl rfl,
   (isSlewComplete_true_iff deadDevice _).2.1 () rfl,
   (isSlewComplete_true_iff muteDevice _).2.2 () () rfl rfl⟩

/-- Claim C2, as the code behaves. `syncSideOfPier`, when the write of `#:Gm#`
succeeds and the response is read up to the `#` terminator (the response is
the payload followed by the terminator, the empty payload being `#` alone).
When the response fits the two-byte array, the call returns and the pier side
is EAST exactly when the first byte received is `E` and WEST otherwise,
whatever it was before, never UNKNOWN. When the response is longer than the
array, the call writes past its end and no pier side is produced: the
behaviour is undefined. -/
theorem syncSideOfPier_pier_side (T : Transport σ) (s : LX200Gemini σ)
    (payload : List Byte) (p1 p2 : σ)
    (hw : T.tty_write (T.tcflush s.PortFD) [35, 58, 71, 109, 35] = (true, p1))
    (hr : T.tty_read_section p1 HASH = (some payload, p2)) :
    (payload.length ≤ 1 →
      ∃ s' : LX200Gemini σ, syncSideOfPier T s = Run.returned s' ∧
        (s'.mount.currentPierSide = TelescopePierSide.PIER_EAST ↔
          (payload ++ [HASH]).head? = some chr_E) ∧
        ((payload ++ [HASH]).head? ≠ some chr_E →
          s'.mount.currentPierSide = TelescopePierSide.PIER_WEST) ∧
        s'.mount.currentPierSide ≠ TelescopePierSide.PIER_UNKNOWN ∧
        s'.mount.currentPierSide =
          (if (payload ++ [HASH]).head? = some chr_E then TelescopePierSide.PIER_EAST
           else TelescopePierSide.PIER_WEST)) ∧
    (1 < payload.length → syncSideOfPier T s = Run.undefined) := by
  refine ⟨fun hlen => ?_, fun hlen => ?_⟩
  · have hfit := (fits_iff payload).mpr hlen
    have key : ∃ s' : LX200Gemini σ, syncSideOfPier T s = Run.returned s' ∧
        s'.mount.currentPierSide =
          (if (payload ++ [HASH]).head? = some chr_E then TelescopePierSide.PIER_EAST
           else TelescopePierSide.PIER_WEST) := by
      simp only [syncSideOfPier, tty_write, tty_read_section, tcflush, lit_Gm, List.take, hw, hr,
        hfit, dite_true, store, setPierSide]
      refine ⟨_, rfl, ?_⟩
      cases payload with
      | nil => simp [HASH, chr_E, NUL]
      | cons a t =>
        cases t with
        | nil => simp
        | cons c u => simp at hlen
    obtain ⟨s', hrun, hside⟩ := key
    refine ⟨s', hrun, ?_⟩
    rw [hside]
    by_cases h : (payload ++ [HASH]).head? = some chr_E
    · rw [if_pos h]
      exact ⟨⟨fun _ => h, fun _ => rfl⟩, fun hn => absurd h hn, by decide, rfl⟩
    · rw [if_neg h]
      exact ⟨⟨fun he => absurd he (by decide), fun hh => absurd hh h⟩, fun _ => rfl,
        by decide, rfl⟩
  · have hfit : ¬ (payload ++ [HASH]).length ≤ ([0, 0] : List Byte).length := by
      rw [fits_iff]; omega
    simp only [syncSideOfPier, tty_write, tty_read_section, tcflush, lit_Gm, List.take, hw, hr,
      hfit, dite_false]

/-- Witness of C2: the response `E#` on a mount whose pier side was WEST
gives EAST, the response `#` alone on a mount whose pier side was EAST gives
WEST, and the response of sixteen `E` and `#` overflows the array. -/
theorem syncSideOfPier_pier_side_witness :
    (∃ s' : LX200Gemini (List Byte),
      syncSideOfPier fixedDevice
        (start [chr_E] .SCOPE_TRACKING .PIER_WEST .COLD_START .PARK_HOME) = Run.returned s' ∧
      s'.mount.currentPierSide = TelescopePierSide.PIER_EAST) ∧
    (∃ s' : LX200Gemini (List Byte),
      syncSideOfPier fixedDevice
        (start [] .SCOPE_TRACKING .PIER_EAST .COLD_START .PARK_HOME) = Run.returned s' ∧
      s'.mount.currentPierSide = TelescopePierSide.PIER_WEST) ∧
    syncSideOfPier fixedDevice
      (start (List.replicate 16 chr_E) .SCOPE_TRACKING .PIER_WEST .COLD_START .PARK_HOME)
      = Run.undefined :=
  ⟨Exists.elim ((syncSideOfPier_pier_side fixedDevice
      (start [chr_E] .SCOPE_TRACKING .PIER_WEST .COLD_START .PARK_HOME)
      [chr_E] [chr_E] [chr_E] rfl rfl).1 (by decide))
      (fun s' h => ⟨s', h.1, h.2.1.2 (by decide)⟩),
   Exists.elim ((syncSideOfPier_pier_side fixedDevice
      (start [] .SCOPE_TRACKING .PIER_EAST .COLD_START .PARK_HOME)
      [] [] [] rfl rfl).1 (by decide))
      (fun s' h => ⟨s', h.1, h.2.2.1 (by decide)⟩),
   (syncSideOfPier_pier_side fixedDevice
      (start (List.replicate 16 chr_E) .SCOPE_TRACKING .PIER_WEST .COLD_START .PARK_HOME)
      (List.replicate 16 chr_E) (List.replicate 16 chr_E) (List.replicate 16 chr_E)
      rfl rfl).2 (by decide)⟩

/-- Claim C3. `Park`: the transport calls made are one flush followed by one
write and nothing else; the bytes written are the 5 bytes `#:hP#` for HOME,
`#:hC#` for STARTUP_POSITION, `#:hZ#` for ZENITH; the call returns what the
write returned, and when the write succeeds the tracking state is PARKING
(not PARKED) and the park status is busy. -/
theorem Park_sends_command (T : Transport σ) (s : LX200Gemini σ) :
    (Park T s).2.log
      = s.log ++ [Op.flush, Op.write (spec_parkCommand s.mount.ParkOptionSP) (Park T s).1] ∧
    (spec_parkCommand s.mount.ParkOptionSP).length = 5 ∧
    (Park T s).1
      = (T.tty_write (T.tcflush s.PortFD) (spec_parkCommand s.mount.ParkOptionSP)).1 ∧
    ((Park T s).1 = true →
      (Park T s).2.mount.TrackState = TelescopeStatus.SCOPE_PARKING ∧
      (Park T s).2.mount.TrackState ≠ TelescopeStatus.SCOPE_PARKED ∧
      (Park T s).2.mount.ParkSP_s = IPState.IPS_BUSY) := by
  have hcmd : (if s.mount.ParkOptionSP = ParkOption.PARK_STARTUP then strncpy lit_hP lit_hC 5
      else if s.mount.ParkOptionSP = ParkOption.PARK_ZENITH then strncpy lit_hP lit_hZ 5
      else lit_hP).take 5 = spec_parkCommand s.mount.ParkOptionSP := by
    cases s.mount.ParkOptionSP <;> decide
  have hlen : (spec_parkCommand s.mount.ParkOptionSP).length = 5 := by
    cases s.mount.ParkOptionSP <;> rfl
  simp only [Park, tty_write, tcflush, hcmd]
  cases hres : T.tty_write (T.tcflush s.PortFD) (spec_parkCommand s.mount.ParkOptionSP) with
  | mk ok p1 =>
    cases ok <;> simp [hlen]

/-- Claim C4. `UnPark`: whatever the prior tracking state, the transport calls
made are one flush and one write of the 5 bytes `#:hN#`; the call returns
what the write returned, and when the write succeeds the tracking state is
IDLE; when two calls in a row both succeed, the mount state after the second
equals the mount state after the first. -/
theorem UnPark_sends_command_idempotent (T : Transport σ) (s : LX200Gemini σ) :
    (UnPark T s).2.log = s.log ++ [Op.flush, Op.write [35, 58, 104, 78, 35] (UnPark T s).1] ∧
    (UnPark T s).1 = (T.tty_write (T.tcflush s.PortFD) [35, 58, 104, 78, 35]).1 ∧
    ((UnPark T s).1 = true →
      (UnPark T s).2.mount.TrackState = TelescopeStatus.SCOPE_IDLE) ∧
    ((UnPark T s).1 = true → (UnPark T (UnPark T s).2).1 = true →
      (UnPark T (UnPark T s).2).2.mount = (UnPark T s).2.mount) := by
  have one : ∀ (u : LX200Gemini σ),
      (UnPark T u).2.log = u.log ++ [Op.flush, Op.write [35, 58, 104, 78, 35] (UnPark T u).1] ∧
      (UnPark T u).1 = (T.tty_write (T.tcflush u.PortFD) [35, 58, 104, 78, 35]).1 ∧
      ((UnPark T u).1 = true →
        (UnPark T u).2.mount = { u.mount with TrackState := TelescopeStatus.SCOPE_IDLE }) := by
    intro u
    simp only [UnPark, tty_write, tcflush, lit_hN, List.take]
    cases hres : T.tty_write (T.tcflush u.PortFD) [35, 58, 104, 78, 35] with
    | mk ok p1 => cases ok <;> simp
  refine ⟨(one s).1, (one s).2.1, ?_, ?_⟩
  · intro h
    rw [(one s).2.2 h]
  · intro h1 h2
    rw [(one _).2.2 h2, (one s).2.2 h1]


/-- Witness of C3: parking at the zenith on a device that accepts the
write. -/
theorem Park_sends_command_witness :
    (Park fixedDevice (start [] .SCOPE_TRACKING .PIER_WEST .COLD_START .PARK_ZENITH)).2.log
      = [Op.flush, Op.write [35, 58, 104, 90, 35] true] ∧
    (Park fixedDevice
        (start [] .SCOPE_TRACKING .PIER_WEST .COLD_START .PARK_ZENITH)).2.mount.TrackState
      = TelescopeStatus.SCOPE_PARKING :=
  ⟨(Park_sends_command fixedDevice
      (start [] .SCOPE_TRACKING .PIER_WEST .COLD_START .PARK_ZENITH)).1,
   ((Park_sends_command fixedDevice
      (start [] .SCOPE_TRACKING .PIER_WEST .COLD_START .PARK_ZENITH)).2.2.2 rfl).1⟩

/-- Witness of C4: unparking a parked mount twice on a device that accepts the
writes. -/
theorem UnPark_sends_command_idempotent_witness :
    (UnPark fixedDevice
        (start [] .SCOPE_PARKED .PIER_WEST .COLD_START .PARK_HOME)).2.mount.TrackState
      = TelescopeStatus.SCOPE_IDLE ∧
    (UnPark fixedDevice (UnPark fixedDevice
        (start [] .SCOPE_PARKED .PIER_WEST .COLD_START .PARK_HOME)).2).2.mount
      = (UnPark fixedDevice (start [] .SCOPE_PARKED .PIER_WEST .COLD_START .PARK_HOME)).2.mount :=
  ⟨(UnPark_sends_command_idempotent fixedDevice
      (start [] .SCOPE_PARKED .PIER_WEST .COLD_START .PARK_HOME)).2.2.1 rfl,
   (UnPark_sends_command_idempotent fixedDevice
      (start [] .SCOPE_PARKED .PIER_WEST .COLD_START .PARK_HOME)).2.2.2 rfl rfl⟩

/-- Case analysis of a handshake run that returns: a property of the state
before, the result and the state after holds of every run as soon as it holds
of the four runs that return at once and is carried over the re-issued
handshake. -/
theorem checkConnection_cases (T : Transport σ)
    (P : LX200Gemini σ → Bool → LX200Gemini σ → Prop)
    (h_write : ∀ (s : LX200Gemini σ) (p1 : σ),
      T.tty_write (T.tcflush s.PortFD) [ACK] = (false, p1) →
      P s false { PortFD := p1, mount := s.mount,
                  log := s.log ++ [Op.flush, Op.write [ACK] false] })
    (h_read : ∀ (s : LX200Gemini σ) (p1 p2 : σ),
      T.tty_write (T.tcflush s.PortFD) [ACK] = (true, p1) →
      T.tty_read_section p1 HASH = (none, p2) →
      P s false { PortFD := p2, mount := s.mount,
                  log := s.log ++ [Op.flush, Op.write [ACK] true, Op.read_section HASH none] })
    (h_status : ∀ (s : LX200Gemini σ) (p1 p2 : σ) (payload : List Byte),
      T.tty_write (T.tcflush s.PortFD) [ACK] = (true, p1) →
      T.tty_read_section p1 HASH = (some payload, p2) →
      payload.length ≤ 1 →
      (payload ++ [HASH]).head? ≠ some chr_b →
      P s true { PortFD := T.tcflush p2, mount := s.mount,
                 log := s.log ++ [Op.flush, Op.write [ACK] true,
                                  Op.read_section HASH (some payload), Op.flush] })
    (h_cmd : ∀ (s : LX200Gemini σ) (p1 p2 p3 : σ) (payload : List Byte),
      T.tty_write (T.tcflush s.PortFD) [ACK] = (true, p1) →
      T.tty_read_section p1 HASH = (some payload, p2) →
      payload.length ≤ 1 →
      (payload ++ [HASH]).head? = some chr_b →
      T.tty_write (T.tcflush p2) (startupCommand s.mount.StartupModeSP) = (false, p3) →
      P s false { PortFD := p3, mount := s.mount,
                  log := s.log ++ [Op.flush, Op.write [ACK] true,
                                   Op.read_section HASH (some payload), Op.flush,
                                   Op.write (startupCommand s.mount.StartupModeSP) false] })
    (h_again : ∀ (s : LX200Gemini σ) (p1 p2 p3 : σ) (payload : List Byte) (r : Bool)
      (s' : LX200Gemini σ),
      T.tty_write (T.tcflush s.PortFD) [ACK] = (true, p1) →
      T.tty_read_section p1 HASH = (some payload, p2) →
      payload.length ≤ 1 →
      (payload ++ [HASH]).head? = some chr_b →
      T.tty_write (T.tcflush p2) (startupCommand s.mount.StartupModeSP) = (true, p3) →
      P { PortFD := p3, mount := s.mount,
          log := s.log ++ [Op.flush, Op.write [ACK] true,
                           Op.read_section HASH (some payload), Op.flush,
                           Op.write (startupCommand s.mount.StartupModeSP) true] } r s' →
      P s r s') :
    ∀ (fuel : Nat) (s : LX200Gemini σ) (r : Bool) (s' : LX200Gemini σ),
      checkConnection T fuel s = Run.returned (r, s') → P s r s' := by
  intro fuel
  induction fuel with
  | zero => intro s r s' h; simp [checkConnection] at h
  | succ n ih =>
    intro s r s' h
    rcases hw : T.tty_write (T.tcflush s.PortFD) [ACK] with ⟨ok, p1⟩
    cases ok with
    | false =>
      rw [checkConnection_write_fail T n s p1 hw] at h
      cases h
      exact h_write s p1 hw
    | true =>
      rcases hr : T.tty_read_section p1 HASH with ⟨res, p2⟩
      cases res with
      | none =>
        rw [checkConnection_read_fail T n s p1 p2 hw hr] at h
        cases h
        exact h_read s p1 p2 hw hr
      | some payload =>
        by_cases hlen : payload.length ≤ 1
        · by_cases hb : (payload ++ [HASH]).head? = some chr_b
          · rcases hc : T.tty_write (T.tcflush p2) (startupCommand s.mount.StartupModeSP)
              with ⟨ok2, p3⟩
            cases ok2 with
            | false =>
              rw [checkConnection_prompt_fail T n s p1 p2 p3 payload hw hr hlen hb hc] at h
              cases h
              exact h_cmd s p1 p2 p3 payload hw hr hlen hb hc
            | true =>
              rw [checkConnection_prompt T n s p1 p2 p3 payload hw hr hlen hb hc] at h
              exact h_again s p1 p2 p3 payload r s' hw hr hlen hb hc (ih _ r s' h)
          · rw [checkConnection_status T n s p1 p2 payload hw hr hlen hb] at h
            cases h
            exact h_status s p1 p2 payload hw hr hlen hb
        · rw [checkConnection_overflow T n s p1 p2 payload hw hr (by omega)] at h
          cases h

/-- The handshake does not touch the mount state. -/
theorem checkConnection_mount (T : Transport σ) (fuel : Nat) (s : LX200Gemini σ) (r : Bool)
    (s' : LX200Gemini σ) (h : checkConnection T fuel s = Run.returned (r, s')) :
    s'.mount = s.mount := by
  refine checkConnection_cases T (fun s _ s' => s'.mount = s.mount) ?_ ?_ ?_ ?_ ?_ fuel s r s' h
  · intros; rfl
  · intros; rfl
  · intros; rfl
  · intros; rfl
  · intro s p1 p2 p3 payload r s' _ _ _ _ _ ih
    exact ih

/-- Claim C5, as the code behaves. Handshake on the startup prompt: when every
transport call succeeds, the first response begins with `b` and the second
does not (both fitting the two-byte array), the handshake returns success and
the byte strings written are the probe 0x06, then the FOUR bytes `b`, the
letter of the startup mode, `#` and NUL, then one more probe 0x06. The
sub-command is therefore not the three bytes `b`, letter, `#`: the NUL that
ends the array is sent as well. -/
theorem checkConnection_prompt_writes (T : Transport σ) (fuel : Nat) (s : LX200Gemini σ)
    (p1 p2 p3 p4 p5 : σ) (first second : List Byte)
    (hw1 : T.tty_write (T.tcflush s.PortFD) [6] = (true, p1))
    (hr1 : T.tty_read_section p1 HASH = (some first, p2))
    (hl1 : first.length ≤ 1)
    (hb1 : (first ++ [HASH]).head? = some chr_b)
    (hc : T.tty_write (T.tcflush p2) [98, spec_startupLetter s.mount.StartupModeSP, 35, 0]
            = (true, p3))
    (hw2 : T.tty_write (T.tcflush p3) [6] = (true, p4))
    (hr2 : T.tty_read_section p4 HASH = (some second, p5))
    (hl2 : second.length ≤ 1)
    (hb2 : (second ++ [HASH]).head? ≠ some chr_b) :
    ∃ (s' : LX200Gemini σ) (new : List Op),
      checkConnection T (fuel + 2) s = Run.returned (true, s') ∧
      s'.log = s.log ++ new ∧
      writes new = [[6], [98, spec_startupLetter s.mount.StartupModeSP, 35, 0], [6]] ∧
      writes new ≠ [[6], [98, spec_startupLetter s.mount.StartupModeSP, 35], [6]] := by
  rw [checkConnection_prompt T (fuel + 1) s p1 p2 p3 first hw1 hr1 hl1 hb1 hc,
    checkConnection_status T fuel _ p4 p5 second hw2 hr2 hl2 hb2]
  refine ⟨_, [Op.flush, Op.write [ACK] true, Op.read_section HASH (some first), Op.flush,
    Op.write (startupCommand s.mount.StartupModeSP) true, Op.flush, Op.write [ACK] true,
    Op.read_section HASH (some second), Op.flush], rfl, ?_, ?_, ?_⟩
  · simp
  · simp [writes, startupCommand, ACK]
  · simp [writes, startupCommand, ACK]

/-- Witness of C5: the response `b#` followed by `G#` with WARM_RESTART
selected; four bytes are written for the sub-command. -/
theorem checkConnection_prompt_writes_witness :
    ∃ (s' : LX200Gemini Nat) (new : List Op),
      checkConnection promptDevice 2
          (start 1 .SCOPE_IDLE .PIER_UNKNOWN .WARM_RESTART .PARK_HOME)
        = Run.returned (true, s') ∧
      s'.log = [] ++ new ∧
      writes new = [[6], [98, 82, 35, 0], [6]] ∧
      writes new ≠ [[6], [98, 82, 35], [6]] :=
  checkConnection_prompt_writes promptDevice 0
    (start 1 .SCOPE_IDLE .PIER_UNKNOWN .WARM_RESTART .PARK_HOME) 1 0 0 0 0 [chr_b] [chr_G]
    rfl rfl (by decide) (by decide) rfl rfl rfl (by decide) (by decide)

/-- Claim C6, as the code behaves. Handshake on a status other than the
prompt, for every first byte `c` other than `b` and every startup mode, when
the probe write and the response read succeed. When the response fits the
two-byte array, the handshake returns success having made exactly one write,
the single byte 0x06, so no startup sub-command is sent. When the response is
longer than the array, the read writes past its end and the handshake does
not return success: the behaviour is undefined. -/
theorem checkConnection_status_succeeds (T : Transport σ) (fuel : Nat) (s : LX200Gemini σ)
    (p1 p2 : σ) (payload : List Byte) (c : Byte)
    (hw : T.tty_write (T.tcflush s.PortFD) [6] = (true, p1))
    (hr : T.tty_read_section p1 HASH = (some payload, p2))
    (hc : (payload ++ [HASH]).head? = some c)
    (hb : c ≠ chr_b) :
    (payload.length ≤ 1 →
      ∃ (s' : LX200Gemini σ) (new : List Op),
        checkConnection T (fuel + 1) s = Run.returned (true, s') ∧
        s'.log = s.log ++ new ∧
        writes new = [[6]]) ∧
    (1 < payload.length → checkConnection T (fuel + 1) s = Run.undefined) := by
  have hb2 : (payload ++ [HASH]).head? ≠ some chr_b := by
    rw [hc]
    intro h
    exact hb (Option.some.inj h)
  refine ⟨fun hlen => ?_, fun hlen => checkConnection_overflow T fuel s p1 p2 payload hw hr hlen⟩
  rw [checkConnection_status T fuel s p1 p2 payload hw hr hlen hb2]
  exact ⟨_, [Op.flush, Op.write [ACK] true, Op.read_section HASH (some payload), Op.flush],
    rfl, rfl, rfl⟩

/-- Witness of C6: the response `G#` gives success with the one write 0x06;
the response of sixteen `G` and `#` overflows the array. -/
theorem checkConnection_status_succeeds_witness :
    (∃ (s' : LX200Gemini Nat) (new : List Op),
      checkConnection promptDevice 1
          (start 0 .SCOPE_IDLE .PIER_UNKNOWN .WARM_START .PARK_HOME)
        = Run.returned (true, s') ∧
      s'.log = [] ++ new ∧
      writes new = [[6]]) ∧
    checkConnection fixedDevice 1
        (start (List.replicate 16 chr_G) .SCOPE_IDLE .PIER_UNKNOWN .WARM_START .PARK_HOME)
      = Run.undefined :=
  ⟨(checkConnection_status_succeeds promptDevice 0
      (start 0 .SCOPE_IDLE .PIER_UNKNOWN .WARM_START .PARK_HOME) 0 0 [chr_G] chr_G
      rfl rfl rfl (by decide)).1 (by decide),
   (checkConnection_status_succeeds fixedDevice 0
      (start (List.replicate 16 chr_G) .SCOPE_IDLE .PIER_UNKNOWN .WARM_START .PARK_HOME)
      (List.replicate 16 chr_G) (List.replicate 16 chr_G) (List.replicate 16 chr_G) chr_G
      rfl rfl rfl (by decide)).2 (by decide)⟩

/-- The command `Park` hands to `tty_write`. -/
theorem parkCommand_eq (o : ParkOption) :
    (if o = ParkOption.PARK_STARTUP then strncpy lit_hP lit_hC 5
      else if o = ParkOption.PARK_ZENITH then strncpy lit_hP lit_hZ 5
      else lit_hP).take 5 = spec_parkCommand o := by
  cases o <;> decide

/-- What the executable check says about each position, for any value of
the flag. -/
theorem bracketedFrom_get (l : List Op) :
    ∀ (b : Bool), bracketedFrom b l = true →
      ∀ (i : Nat) (op : Op), l[i]? = some op →
        (op.isWrite = true → (i = 0 ∧ b = true) ∨ ∃ j, i = j + 1 ∧ l[j]? = some Op.flush) ∧
        (op.isReadOk = true → l[i + 1]? = some Op.flush) := by
  induction l with
  | nil => intro b _ i op h; simp at h
  | cons a rest ih =>
    intro b hb i op h
    simp only [bracketedFrom, Bool.and_eq_true, Bool.or_eq_true, Bool.not_eq_true'] at hb
    obtain ⟨⟨hw, hr⟩, hrest⟩ := hb
    cases i with
    | zero =>
      simp only [List.getElem?_cons_zero, Option.some.injEq] at h
      subst h
      refine ⟨fun hop => Or.inl ⟨rfl, ?_⟩, fun hop => ?_⟩
      · rcases hw with hw | hw
        · rw [hop] at hw; cases hw
        · exact hw
      · rcases hr with hr | hr
        · rw [hop] at hr; cases hr
        · cases rest with
          | nil => simp at hr
          | cons c t =>
            simp only [List.head?_cons, beq_iff_eq] at hr
            simp only [List.getElem?_cons_succ, List.getElem?_cons_zero]
            exact hr
    | succ k =>
      simp only [List.getElem?_cons_succ] at h
      obtain ⟨h1, h2⟩ := ih _ hrest k op h
      refine ⟨fun hop => Or.inr ?_, fun hop => ?_⟩
      · rcases h1 hop with ⟨hk, ha⟩ | ⟨j, hj, hflush⟩
        · refine ⟨0, by omega, ?_⟩
          simp only [beq_iff_eq] at ha
          simp [ha]
        · refine ⟨j + 1, by omega, ?_⟩
          simpa using hflush
      · simpa using h2 hop

/-- The executable check is sound for flush bracketing. -/
theorem FlushBracketed_of_check (l : List Op) (h : bracketedFrom false l = true) :
    FlushBracketed l := by
  intro i op hi
  obtain ⟨h1, h2⟩ := bracketedFrom_get l false h i op hi
  refine ⟨fun hop => ?_, h2⟩
  rcases h1 hop with ⟨_, hb⟩ | hj
  · cases hb
  · exact hj

/-- A run of `syncSideOfPier` that returns leaves every part of the mount
state but the pier side as it was, and the calls it made pass the executable
check of flush bracketing. -/
theorem syncSideOfPier_returned (T : Transport σ) (s s' : LX200Gemini σ)
    (h : syncSideOfPier T s = Run.returned s') :
    (s'.mount.TrackState = s.mount.TrackState ∧
      s'.mount.StartupModeSP = s.mount.StartupModeSP ∧
      s'.mount.ParkOptionSP = s.mount.ParkOptionSP) ∧
    ∃ new : List Op, s'.log = s.log ++ new ∧ bracketedFrom false new = true := by
  rcases hw : T.tty_write (T.tcflush s.PortFD) (List.take 5 lit_Gm) with ⟨ok, p1⟩
  cases ok with
  | false =>
    simp only [syncSideOfPier, tty_write, tcflush, hw, Run.returned.injEq] at h
    subst h
    exact ⟨⟨rfl, rfl, rfl⟩, [Op.flush, Op.write (List.take 5 lit_Gm) false], by simp,
      by simp [bracketedFrom, Op.isWrite, Op.isReadOk]⟩
  | true =>
    rcases hr : T.tty_read_section p1 HASH with ⟨res, p2⟩
    cases res with
    | none =>
      simp only [syncSideOfPier, tty_write, tty_read_section, tcflush, hw, hr,
        Run.returned.injEq] at h
      subst h
      exact ⟨⟨rfl, rfl, rfl⟩,
        [Op.flush, Op.write (List.take 5 lit_Gm) true, Op.read_section HASH none], by simp,
        by simp [bracketedFrom, Op.isWrite, Op.isReadOk]⟩
    | some payload =>
      by_cases hfit : (payload ++ [HASH]).length ≤ ([0, 0] : List Byte).length
      · simp only [syncSideOfPier, tty_write, tty_read_section, tcflush, hw, hr, hfit,
          dite_true, setPierSide, Run.returned.injEq] at h
        subst h
        exact ⟨⟨rfl, rfl, rfl⟩,
          [Op.flush, Op.write (List.take 5 lit_Gm) true, Op.read_section HASH (some payload),
            Op.flush], by simp, by simp [bracketedFrom, Op.isWrite, Op.isReadOk]⟩
      · simp only [syncSideOfPier, tty_write, tty_read_section, tcflush, hw, hr, hfit,
          dite_false] at h
        cases h

/-- Claim C7. Transport failure leaves the state alone: when the write fails,
`Park` and `UnPark` return failure with the tracking state and the park
status as they were; when the write fails, or the write succeeds and the
terminator-framed read fails, `syncSideOfPier` returns with the pier side as
it was. -/
theorem transport_failure_keeps_state (T : Transport σ) (s : LX200Gemini σ) :
    ((T.tty_write (T.tcflush s.PortFD) (spec_parkCommand s.mount.ParkOptionSP)).1 = false →
      (Park T s).1 = false ∧
      (Park T s).2.mount.TrackState = s.mount.TrackState ∧
      (Park T s).2.mount.ParkSP_s = s.mount.ParkSP_s) ∧
    ((T.tty_write (T.tcflush s.PortFD) [35, 58, 104, 78, 35]).1 = false →
      (UnPark T s).1 = false ∧
      (UnPark T s).2.mount.TrackState = s.mount.TrackState ∧
      (UnPark T s).2.mount.ParkSP_s = s.mount.ParkSP_s) ∧
    ((T.tty_write (T.tcflush s.PortFD) [35, 58, 71, 109, 35]).1 = false →
      ∃ s' : LX200Gemini σ, syncSideOfPier T s = Run.returned s' ∧
        s'.mount.currentPierSide = s.mount.currentPierSide) ∧
    (∀ (p1 p2 : σ),
      T.tty_write (T.tcflush s.PortFD) [35, 58, 71, 109, 35] = (true, p1) →
      T.tty_read_section p1 HASH = (none, p2) →
      ∃ s' : LX200Gemini σ, syncSideOfPier T s = Run.returned s' ∧
        s'.mount.currentPierSide = s.mount.currentPierSide) := by
  refine ⟨?_, ?_, ?_, ?_⟩
  · intro h
    simp only [Park, tty_write, tcflush, parkCommand_eq]
    rcases hres : T.tty_write (T.tcflush s.PortFD) (spec_parkCommand s.mount.ParkOptionSP)
      with ⟨ok, p1⟩
    rw [hres] at h
    cases ok with
    | false => simp
    | true => simp at h
  · intro h
    simp only [UnPark, tty_write, tcflush, lit_hN, List.take]
    rcases hres : T.tty_write (T.tcflush s.PortFD) [35, 58, 104, 78, 35] with ⟨ok, p1⟩
    rw [hres] at h
    cases ok with
    | false => simp
    | true => simp at h
  · intro h
    simp only [syncSideOfPier, tty_write, tcflush, lit_Gm, List.take]
    rcases hres : T.tty_write (T.tcflush s.PortFD) [35, 58, 71, 109, 35] with ⟨ok, p1⟩
    rw [hres] at h
    cases ok with
    | false => exact ⟨_, rfl, rfl⟩
    | true => simp at h
  · intro p1 p2 hw hr
    simp only [syncSideOfPier, tty_write, tty_read_section, tcflush, lit_Gm, List.take, hw, hr]
    exact ⟨_, rfl, rfl⟩

/-- Witness of C7: a device whose writes fail, and a device that accepts the
write and never answers, on a tracking mount whose pier side is EAST. -/
theorem transport_failure_keeps_state_witness :
    ((Park deadDevice (start () .SCOPE_TRACKING .PIER_EAST .COLD_START .PARK_HOME)).1 = false ∧
      (Park deadDevice
        (start () .SCOPE_TRACKING .PIER_EAST .COLD_START .PARK_HOME)).2.mount.TrackState
        = TelescopeStatus.SCOPE_TRACKING ∧
      (Park deadDevice
        (start () .SCOPE_TRACKING .PIER_EAST .COLD_START .PARK_HOME)).2.mount.ParkSP_s
        = IPState.IPS_IDLE) ∧
    ((UnPark deadDevice (start () .SCOPE_TRACKING .PIER_EAST .COLD_START .PARK_HOME)).1 = false ∧
      (UnPark deadDevice
        (start () .SCOPE_TRACKING .PIER_EAST .COLD_START .PARK_HOME)).2.mount.TrackState
        = TelescopeStatus.SCOPE_TRACKING ∧
      (UnPark deadDevice
        (start () .SCOPE_TRACKING .PIER_EAST .COLD_START .PARK_HOME)).2.mount.ParkSP_s
        = IPState.IPS_IDLE) ∧
    (∃ s' : LX200Gemini Unit,
      syncSideOfPier deadDevice
        (start () .SCOPE_TRACKING .PIER_EAST .COLD_START .PARK_HOME) = Run.returned s' ∧
      s'.mount.currentPierSide = TelescopePierSide.PIER_EAST) ∧
    (∃ s' : LX200Gemini Unit,
      syncSideOfPier muteDevice
        (start () .SCOPE_TRACKING .PIER_EAST .COLD_START .PARK_HOME) = Run.returned s' ∧
      s'.mount.currentPierSide = TelescopePierSide.PIER_EAST) :=
  ⟨(transport_failure_keeps_state deadDevice
      (start () .SCOPE_TRACKING .PIER_EAST .COLD_START .PARK_HOME)).1 rfl,
   (transport_failure_keeps_state deadDevice
      (start () .SCOPE_TRACKING .PIER_EAST .COLD_START .PARK_HOME)).2.1 rfl,
   (transport_failure_keeps_state deadDevice
      (start () .SCOPE_TRACKING .PIER_EAST .COLD_START .PARK_HOME)).2.2.1 rfl,
   (transport_failure_keeps_state muteDevice
      (start () .SCOPE_TRACKING .PIER_EAST .COLD_START .PARK_HOME)).2.2.2 () () rfl rfl⟩

/-- Claim C10. Frame of the mount state, for every prior state and every
transport behaviour: a handshake that returns, `isSlewComplete` and a
`syncSideOfPier` that returns leave the tracking state as it was; a handshake that
returns, `isSlewComplete`, `Park` and `UnPark` leave the pier side as it was;
none of the five changes the selected startup mode or park target. -/
theorem mount_state_frame (T : Transport σ) (s : LX200Gemini σ) :
    (∀ (fuel : Nat) (r : Bool) (s' : LX200Gemini σ),
      checkConnection T fuel s = Run.returned (r, s') →
        s'.mount.TrackState = s.mount.TrackState ∧
        s'.mount.currentPierSide = s.mount.currentPierSide ∧
        s'.mount.StartupModeSP = s.mount.StartupModeSP ∧
        s'.mount.ParkOptionSP = s.mount.ParkOptionSP) ∧
    ((isSlewComplete T s).2.mount.TrackState = s.mount.TrackState ∧
      (isSlewComplete T s).2.mount.currentPierSide = s.mount.currentPierSide ∧
      (isSlewComplete T s).2.mount.StartupModeSP = s.mount.StartupModeSP ∧
      (isSlewComplete T s).2.mount.ParkOptionSP = s.mount.ParkOptionSP) ∧
    (∀ (s' : LX200Gemini σ), syncSideOfPier T s = Run.returned s' →
      s'.mount.TrackState = s.mount.TrackState ∧
      s'.mount.StartupModeSP = s.mount.StartupModeSP ∧
      s'.mount.ParkOptionSP = s.mount.ParkOptionSP) ∧
    ((Park T s).2.mount.currentPierSide = s.mount.currentPierSide ∧
      (Park T s).2.mount.StartupModeSP = s.mount.StartupModeSP ∧
      (Park T s).2.mount.ParkOptionSP = s.mount.ParkOptionSP) ∧
    ((UnPark T s).2.mount.currentPierSide = s.mount.currentPierSide ∧
      (UnPark T s).2.mount.StartupModeSP = s.mount.StartupModeSP ∧
      (UnPark T s).2.mount.ParkOptionSP = s.mount.ParkOptionSP) := by
  refine ⟨?_, ?_, ?_, ?_, ?_⟩
  · intro fuel r s' h
    rw [checkConnection_mount T fuel s r s' h]
    exact ⟨rfl, rfl, rfl, rfl⟩
  · rcases hw : T.tty_write (T.tcflush s.PortFD) (List.take 5 lit_Gv) with ⟨ok, p1⟩
    cases ok with
    | false => simp [isSlewComplete, tty_write, tcflush, hw]
    | true =>
      rcases hr : T.tty_read p1 1 with ⟨res, p2⟩
      cases res with
      | none => simp [isSlewComplete, tty_write, tty_read, tcflush, hw, hr]
      | some bytes =>
        simp only [isSlewComplete, tty_write, tty_read, tcflush, hw, hr]
        split <;> simp
  · intro s' h
    exact (syncSideOfPier_returned T s s' h).1
  · rcases hw : T.tty_write (T.tcflush s.PortFD) (spec_parkCommand s.mount.ParkOptionSP)
      with ⟨ok, p1⟩
    cases ok <;> simp [Park, tty_write, tcflush, parkCommand_eq, hw]
  · rcases hw : T.tty_write (T.tcflush s.PortFD) (List.take 5 lit_hN) with ⟨ok, p1⟩
    cases ok <;> simp [UnPark, tty_write, tcflush, hw]

/-- Witness of C10: a handshake through one startup prompt, and a pier-side
query answered `E#`, on a tracking mount whose pier side is EAST. -/
theorem mount_state_frame_witness :
    (∃ (s' : LX200Gemini Nat),
      checkConnection promptDevice 2
          (start 1 .SCOPE_TRACKING .PIER_EAST .WARM_START .PARK_ZENITH)
        = Run.returned (true, s') ∧
      s'.mount.TrackState = TelescopeStatus.SCOPE_TRACKING ∧
      s'.mount.currentPierSide = TelescopePierSide.PIER_EAST ∧
      s'.mount.StartupModeSP = StartupMode.WARM_START ∧
      s'.mount.ParkOptionSP = ParkOption.PARK_ZENITH) ∧
    (∃ (s' : LX200Gemini (List Byte)),
      syncSideOfPier fixedDevice
          (start [chr_E] .SCOPE_TRACKING .PIER_EAST .WARM_START .PARK_ZENITH)
        = Run.returned s' ∧
      s'.mount.TrackState = TelescopeStatus.SCOPE_TRACKING ∧
      s'.mount.StartupModeSP = StartupMode.WARM_START ∧
      s'.mount.ParkOptionSP = ParkOption.PARK_ZENITH) :=
  ⟨⟨_, rfl, (mount_state_frame promptDevice
      (start 1 .SCOPE_TRACKING .PIER_EAST .WARM_START .PARK_ZENITH)).1 2 true _ rfl⟩,
   ⟨_, rfl, (mount_state_frame fixedDevice
      (start [chr_E] .SCOPE_TRACKING .PIER_EAST .WARM_START .PARK_ZENITH)).2.2.1 _ rfl⟩⟩

/-- The calls of a handshake that returns pass the executable check. -/
theorem checkConnection_log (T : Transport σ) (fuel : Nat) (s : LX200Gemini σ) (r : Bool)
    (s' : LX200Gemini σ) (h : checkConnection T fuel s = Run.returned (r, s')) :
    ∃ new : List Op, s'.log = s.log ++ new ∧ bracketedFrom false new = true := by
  refine checkConnection_cases T
    (fun s _ s' => ∃ new : List Op, s'.log = s.log ++ new ∧ bracketedFrom false new = true)
    ?_ ?_ ?_ ?_ ?_ fuel s r s' h
  · intro s p1 _
    exact ⟨_, rfl, by simp [bracketedFrom, Op.isWrite, Op.isReadOk]⟩
  · intro s p1 p2 _ _
    exact ⟨_, rfl, by simp [bracketedFrom, Op.isWrite, Op.isReadOk]⟩
  · intro s p1 p2 payload _ _ _ _
    exact ⟨_, rfl, by simp [bracketedFrom, Op.isWrite, Op.isReadOk]⟩
  · intro s p1 p2 p3 payload _ _ _ _ _
    exact ⟨_, rfl, by simp [bracketedFrom, Op.isWrite, Op.isReadOk]⟩
  · intro s p1 p2 p3 payload r s' _ _ _ _ _ ih
    obtain ⟨new, hlog, hnew⟩ := ih
    refine ⟨[Op.flush, Op.write [ACK] true, Op.read_section HASH (some payload), Op.flush,
      Op.write (startupCommand s.mount.StartupModeSP) true] ++ new, ?_, ?_⟩
    · rw [hlog]; simp
    · have hne : ∀ (bs : List Byte) (ok : Bool), (Op.write bs ok == Op.flush) = false := by
        intro bs ok
        exact beq_eq_false_iff_ne.mpr (by simp)
      simp [bracketedFrom, Op.isWrite, Op.isReadOk, hne, hnew]

/-- Claim C9. Flush bracketing of the transport calls a run adds to the log,
for every outcome of the individual calls: in a handshake that returns, in
`isSlewComplete`, in a `syncSideOfPier` that returns, in `Park` and `UnPark`, every write has a
flush right before it and every read that succeeded has a flush right after
it. -/
theorem flush_bracketing (T : Transport σ) (s : LX200Gemini σ) :
    (∀ (fuel : Nat) (r : Bool) (s' : LX200Gemini σ),
      checkConnection T fuel s = Run.returned (r, s') →
        ∃ new : List Op, s'.log = s.log ++ new ∧ FlushBracketed new) ∧
    (∃ new : List Op, (isSlewComplete T s).2.log = s.log ++ new ∧ FlushBracketed new) ∧
    (∀ (s' : LX200Gemini σ), syncSideOfPier T s = Run.returned s' →
      ∃ new : List Op, s'.log = s.log ++ new ∧ FlushBracketed new) ∧
    (∃ new : List Op, (Park T s).2.log = s.log ++ new ∧ FlushBracketed new) ∧
    (∃ new : List Op, (UnPark T s).2.log = s.log ++ new ∧ FlushBracketed new) := by
  refine ⟨?_, ?_, ?_, ?_, ?_⟩
  · intro fuel r s' h
    obtain ⟨new, hlog, hnew⟩ := checkConnection_log T fuel s r s' h
    exact ⟨new, hlog, FlushBracketed_of_check new hnew⟩
  · rcases hw : T.tty_write (T.tcflush s.PortFD) (List.take 5 lit_Gv) with ⟨ok, p1⟩
    cases ok with
    | false =>
      refine ⟨[Op.flush, Op.write (List.take 5 lit_Gv) false], ?_,
        FlushBracketed_of_check _ (by simp [bracketedFrom, Op.isWrite, Op.isReadOk])⟩
      simp [isSlewComplete, tty_write, tcflush, hw]
    | true =>
      rcases hr : T.tty_read p1 1 with ⟨res, p2⟩
      cases res with
      | none =>
        refine ⟨[Op.flush, Op.write (List.take 5 lit_Gv) true, Op.read 1 none], ?_,
          FlushBracketed_of_check _ (by simp [bracketedFrom, Op.isWrite, Op.isReadOk])⟩
        simp [isSlewComplete, tty_write, tty_read, tcflush, hw, hr]
      | some bytes =>
        refine ⟨[Op.flush, Op.write (List.take 5 lit_Gv) true, Op.read 1 (some bytes),
          Op.flush], ?_,
          FlushBracketed_of_check _ (by simp [bracketedFrom, Op.isWrite, Op.isReadOk])⟩
        simp only [isSlewComplete, tty_write, tty_read, tcflush, hw, hr]
        split <;> simp
  · intro s' h
    obtain ⟨new, hlog, hnew⟩ := (syncSideOfPier_returned T s s' h).2
    exact ⟨new, hlog, FlushBracketed_of_check new hnew⟩
  · rcases hw : T.tty_write (T.tcflush s.PortFD) (spec_parkCommand s.mount.ParkOptionSP)
      with ⟨ok, p1⟩
    refine ⟨[Op.flush, Op.write (spec_parkCommand s.mount.ParkOptionSP) ok], ?_,
      FlushBracketed_of_check _ (by simp [bracketedFrom, Op.isWrite, Op.isReadOk])⟩
    cases ok <;> simp [Park, tty_write, tcflush, parkCommand_eq, hw]
  · rcases hw : T.tty_write (T.tcflush s.PortFD) (List.take 5 lit_hN) with ⟨ok, p1⟩
    refine ⟨[Op.flush, Op.write (List.take 5 lit_hN) ok], ?_,
      FlushBracketed_of_check _ (by simp [bracketedFrom, Op.isWrite, Op.isReadOk])⟩
    cases ok <;> simp [UnPark, tty_write, tcflush, hw]

/-- Witness of C9: a handshake through one startup prompt; its nine transport
calls are flush-bracketed. -/
theorem flush_bracketing_witness :
    ∃ (s' : LX200Gemini Nat) (new : List Op),
      checkConnection promptDevice 2
          (start 1 .SCOPE_IDLE .PIER_UNKNOWN .COLD_START .PARK_HOME) = Run.returned (true, s') ∧
      s'.log = [] ++ new ∧ FlushBracketed new :=
  Exists.elim ((flush_bracketing promptDevice
    (start 1 .SCOPE_IDLE .PIER_UNKNOWN .COLD_START .PARK_HOME)).1 2 true _ rfl)
    (fun new h => ⟨_, new, rfl, h⟩)

/-- The counting device with `k` prompts left grants at most `k` prompt
rounds. -/
theorem promptDevice_promptsAtMost (m : StartupMode) (k : Nat) :
    PromptsAtMost promptDevice m k k := by
  induction k with
  | zero =>
    intro p1 p2 p3 hw hr _
    simp only [promptDevice, Prod.mk.injEq, true_and] at hw
    subst hw
    simp [promptDevice, chr_G, chr_b] at hr
  | succ n ih =>
    intro p1 p2 p3 hw hr hc
    simp only [promptDevice, Prod.mk.injEq, true_and] at hw hc
    subst hw
    simp only [promptDevice, Prod.mk.injEq, true_and] at hr
    subst hr hc
    exact ih

end Gemini
